import Mathlib

/-
  Verification of a single-page model-browser application (src/main.py).

  The application lists models installed in a local serving daemon, lets the
  user pick one, fetches that model's configuration record, formats it as
  indented JSON, and displays three pieces of session state: the submitted
  model label, the system prompt, and the formatted configuration.

  The embedding below translates the Python source into Lean:
  * Python values appearing in a configuration record become the mutual
    inductive type `PyVal` / `PyFields` / `PyItems` (strings, integers,
    booleans, None, datetimes, nested dicts and lists, plus an opaque
    non-serializable object carrying its Python type name).
  * `json.dumps(d, indent=2, default=datetime_converter)` becomes the
    fallible serializer `serVal` / `serFields` / `serItems`, returning
    `Except String (List Char)`; `datetime_converter` is translated directly.
  * The daemon is an oracle: `list()` is an `Except` value, `show(name)` is a
    function `String → Option PyFields` (`none` = any exception raised).
  * The Shiny server's submit effect becomes the pure transition `submit`
    on `SessionState`, returning the new state, the list of notifications
    shown, and whether an exception escaped the handler.
-/

/-- A naive `datetime.datetime` value: the constructor of Python's datetime
validates its ranges, so a reachable value always has `year ≤ 9999`,
`month ≤ 12`, and so on; the serialization below only needs the components. -/
structure DT where
  year : Nat
  month : Nat
  day : Nat
  hour : Nat
  minute : Nat
  second : Nat
  microsecond : Nat
deriving DecidableEq

/-- Two decimal digits of `n` (its value modulo 100), zero padded. -/
def pad2 (n : Nat) : List Char :=
  [Nat.digitChar (n / 10 % 10), Nat.digitChar (n % 10)]

/-- Four decimal digits of `n` (its value modulo 10000), zero padded. -/
def pad4 (n : Nat) : List Char :=
  [Nat.digitChar (n / 1000 % 10), Nat.digitChar (n / 100 % 10),
   Nat.digitChar (n / 10 % 10), Nat.digitChar (n % 10)]

/-- Six decimal digits of `n` (its value modulo 1000000), zero padded. -/
def pad6 (n : Nat) : List Char :=
  [Nat.digitChar (n / 100000 % 10), Nat.digitChar (n / 10000 % 10),
   Nat.digitChar (n / 1000 % 10), Nat.digitChar (n / 100 % 10),
   Nat.digitChar (n / 10 % 10), Nat.digitChar (n % 10)]

/-- The characters of `datetime.isoformat()` for a naive datetime:
`YYYY-MM-DDTHH:MM:SS`, followed by `.ffffff` when the microsecond field is
nonzero (exactly Python's rule: microseconds are omitted when zero). -/
def isoChars (t : DT) : List Char :=
  pad4 t.year ++ '-' :: pad2 t.month ++ '-' :: pad2 t.day ++
  'T' :: pad2 t.hour ++ ':' :: pad2 t.minute ++ ':' :: pad2 t.second ++
  (if t.microsecond = 0 then [] else '.' :: pad6 t.microsecond)

/-- `datetime.isoformat()` as a string. -/
def isoformat (t : DT) : String :=
  String.mk (isoChars t)

mutual

/-- A Python value that can appear in a model configuration record.
`obj ty` stands for any object of Python type `ty` that `json.dumps` cannot
serialize and that is not a datetime. -/
inductive PyVal : Type where
  | str : String → PyVal
  | int : Int → PyVal
  | bool : Bool → PyVal
  | null : PyVal
  | dt : DT → PyVal
  | obj : String → PyVal
  | dict : PyFields → PyVal
  | arr : PyItems → PyVal

/-- The entries of a Python dict with string keys, in insertion order. -/
inductive PyFields : Type where
  | nil : PyFields
  | cons : String → PyVal → PyFields → PyFields

/-- The elements of a Python list. -/
inductive PyItems : Type where
  | nil : PyItems
  | cons : PyVal → PyItems → PyItems

end

/-- The Python type name of a value, as `o.__class__.__name__` reports it. -/
def pyTypeName : PyVal → String
  | .str _ => "str"
  | .int _ => "int"
  | .bool _ => "bool"
  | .null => "NoneType"
  | .dt _ => "datetime"
  | .obj ty => ty
  | .dict _ => "dict"
  | .arr _ => "list"

/-- `datetime_converter` from src/main.py: converts datetime objects to
ISO 8601 strings for JSON serialization, and raises `TypeError` (here: an
`Except.error` carrying the exception message) on anything else. -/
def datetime_converter (o : PyVal) : Except String String :=
  match o with
  | .dt t => Except.ok (isoformat t)
  | _ => Except.error
      ("Object of type " ++ pyTypeName o ++ " is not JSON serializable")

/-- The opening brace character. -/
def lbr : Char := '\x7b'

/-- The closing brace character. -/
def rbr : Char := '\x7d'

/-- Concatenation of the images of `f`, as Python escaping does per char. -/
def concatMap (f : α → List β) : List α → List β
  | [] => []
  | a :: as => f a ++ concatMap f as

/-- Four lowercase hexadecimal digits of `n` (its value modulo 65536),
as produced by Python's `\u%04x` escape. -/
def hex4 (n : Nat) : List Char :=
  [Nat.digitChar (n / 4096 % 16), Nat.digitChar (n / 256 % 16),
   Nat.digitChar (n / 16 % 16), Nat.digitChar (n % 16)]

/-- `json.dumps` escaping of one character with `ensure_ascii=True` (the
default): the two-character escapes of `ESCAPE_DCT`, and `\uXXXX` escapes
(with surrogate pairs above the basic plane) for every character outside
the printable ASCII range `0x20`–`0x7e`. -/
def escChar (c : Char) : List Char :=
  if c = '"' then ['\\', '"']
  else if c = '\\' then ['\\', '\\']
  else if c = '\n' then ['\\', 'n']
  else if c = '\t' then ['\\', 't']
  else if c = '\r' then ['\\', 'r']
  else if c = '\x08' then ['\\', 'b']
  else if c = '\x0c' then ['\\', 'f']
  else if c.toNat < 32 then '\\' :: 'u' :: hex4 c.toNat
  else if 126 < c.toNat then
    if c.toNat < 65536 then '\\' :: 'u' :: hex4 c.toNat
    else '\\' :: 'u' :: hex4 (55296 + (c.toNat - 65536) / 1024) ++
         '\\' :: 'u' :: hex4 (56320 + (c.toNat - 65536) % 1024)
  else [c]

/-- `json.dumps` serialization of a Python string: a double-quoted,
character-escaped form. -/
def escString (s : String) : List Char :=
  '"' :: concatMap escChar s.data ++ ['"']

/-- `n` space characters. -/
def spaces (n : Nat) : List Char :=
  List.replicate n ' '

mutual

/-- `json.dumps(v, indent=2, default=datetime_converter)` at current
indentation `ind` (the number of spaces prefixed to the closing bracket of
the enclosing container): native JSON values serialize directly, non-native
values (datetimes and opaque objects) go through `datetime_converter`, whose
`TypeError` propagates as an `Except.error`. -/
def serVal (ind : Nat) : PyVal → Except String (List Char)
  | .str s => Except.ok (escString s)
  | .int n => Except.ok (toString n).data
  | .bool b => Except.ok (if b then "true".data else "false".data)
  | .null => Except.ok "null".data
  | .dt t =>
    match datetime_converter (.dt t) with
    | Except.ok s => Except.ok (escString s)
    | Except.error e => Except.error e
  | .obj ty =>
    match datetime_converter (.obj ty) with
    | Except.ok s => Except.ok (escString s)
    | Except.error e => Except.error e
  | .dict .nil => Except.ok [lbr, rbr]
  | .dict (.cons k v fs) =>
    match serFields ind (.cons k v fs) with
    | Except.error e => Except.error e
    | Except.ok body =>
      Except.ok (lbr :: '\n' :: (body ++ '\n' :: (spaces ind ++ [rbr])))
  | .arr .nil => Except.ok ['[', ']']
  | .arr (.cons v vs) =>
    match serItems ind (.cons v vs) with
    | Except.error e => Except.error e
    | Except.ok body =>
      Except.ok ('[' :: '\n' :: (body ++ '\n' :: (spaces ind ++ [']'])))

/-- The lines of a nonempty dict body: each entry indented two further
spaces, `"key": value`, entries joined by `,\n` (the default item and key
separators when an indent is given). -/
def serFields (ind : Nat) : PyFields → Except String (List Char)
  | .nil => Except.ok []
  | .cons k v .nil =>
    match serVal (ind + 2) v with
    | Except.error e => Except.error e
    | Except.ok sv =>
      Except.ok (spaces (ind + 2) ++ escString k ++ ':' :: ' ' :: sv)
  | .cons k v (.cons k2 v2 fs) =>
    match serVal (ind + 2) v with
    | Except.error e => Except.error e
    | Except.ok sv =>
      match serFields ind (.cons k2 v2 fs) with
      | Except.error e => Except.error e
      | Except.ok rest =>
        Except.ok (spaces (ind + 2) ++ escString k ++
          ':' :: ' ' :: (sv ++ ',' :: '\n' :: rest))

/-- The lines of a nonempty list body, analogous to `serFields`. -/
def serItems (ind : Nat) : PyItems → Except String (List Char)
  | .nil => Except.ok []
  | .cons v .nil =>
    match serVal (ind + 2) v with
    | Except.error e => Except.error e
    | Except.ok sv => Except.ok (spaces (ind + 2) ++ sv)
  | .cons v (.cons v2 vs) =>
    match serVal (ind + 2) v with
    | Except.error e => Except.error e
    | Except.ok sv =>
      match serItems ind (.cons v2 vs) with
      | Except.error e => Except.error e
      | Except.ok rest =>
        Except.ok (spaces (ind + 2) ++ (sv ++ ',' :: '\n' :: rest))

end

/-- `format_model_config` from src/main.py: formats the model configuration
dictionary into a JSON string for display via
`json.dumps(config_dict, indent=2, default=datetime_converter)`. -/
def format_model_config (config_dict : PyFields) : Except String String :=
  match serVal 0 (.dict config_dict) with
  | Except.ok out => Except.ok (String.mk out)
  | Except.error e => Except.error e

example :
    format_model_config (.cons "x" (.int 1) .nil) =
      Except.ok (String.mk
        (lbr :: "\n  \"x\": 1\n".data ++ [rbr])) := by rfl

/-- A model descriptor as returned by the daemon's `list()` call: it exposes
at least a `model` name field. -/
structure ModelDesc where
  model : String
deriving DecidableEq

/-- `get_available_models` from src/main.py: retrieves the list of available
models from the Ollama server. The daemon round trip is the oracle
`listResult`: `Except.ok descs` when `ollama.list()` returns descriptors,
`Except.error e` when anything in the `try` block raises. On failure the
function prints and returns the single sentinel entry. -/
def get_available_models (listResult : Except String (List ModelDesc)) :
    List String :=
  match listResult with
  | Except.ok descs => descs.map (fun d => d.model)
  | Except.error _ => ["Error: Could not connect to Ollama. Is it running?"]

/-- Python `dict.get`: the first entry with the given key, if any. -/
def fieldsGet (key : String) : PyFields → Option PyVal
  | .nil => none
  | .cons k v fs => if k = key then some v else fieldsGet key fs

/-- The `system` entry of a `ShowResponse.model_dump()` dict as
`config_dict.get("system")` reads it. `ShowResponse` types the field as
`Optional[str]`, so the value under the key, when the key is present, is a
string or `None`; both `None` and an absent key give Python `None`,
here `Option.none`. -/
def systemOf (config_dict : PyFields) : Option String :=
  match fieldsGet "system" config_dict with
  | some (.str s) => some s
  | _ => none

/-- `get_model_config` from src/main.py: fetches the configuration details
for a specific model. The daemon round trip `ollama.show(model_name)`
followed by `model_dump()` is the oracle `shw`: `some config_dict` on
success, `none` when anything raises (the `except` branch prints and
returns `(None, None)`). -/
def get_model_config (shw : String → Option PyFields) (model_name : String) :
    Option PyFields × Option String :=
  match shw model_name with
  | none => (none, none)
  | some config_dict => (some config_dict, systemOf config_dict)

/-- The three reactive display fields owned by the server function. -/
structure SessionState where
  model_to_display : String
  model_config : String
  system_prompt : String
deriving DecidableEq

/-- The initial values of the three reactive fields. -/
def initialState : SessionState :=
  { model_to_display := "No model submitted yet."
    model_config := "Model config will be shown here after submission."
    system_prompt := "No system prompt configured" }

/-- The outcome of one invocation of the submit effect: the session state
when the handler returns (or when the exception escapes it), the error
notifications shown during the invocation, and whether an uncaught
exception escaped the handler. -/
structure SubmitResult where
  state : SessionState
  notifications : List String
  raised : Bool
deriving DecidableEq

/-- Python `needle in haystack` on strings, written on character lists:
`containsSub p s` holds when `p` occurs contiguously in `s`. -/
def listHasPre (p s : List Char) : Bool :=
  match p, s with
  | [], _ => true
  | _ :: _, [] => false
  | a :: as, b :: bs => a == b && listHasPre as bs

/-- Substring occurrence test, scanning every suffix of the haystack. -/
def containsSub (p : List Char) : List Char → Bool
  | [] => listHasPre p []
  | b :: bs => listHasPre p (b :: bs) || containsSub p bs

/-- The test `"Error" in selected_model` from the submit handler. -/
def containsError (s : String) : Bool :=
  containsSub "Error".data s.data

/-- The connectivity-error message written into all three fields on the
sentinel path. -/
def connErrMsg : String := "Error: Could not connect to Ollama."

/-- The submit effect from src/main.py (the `@reactive.event(input.submit_model)`
body), as a pure transition. `shw` is the daemon oracle behind
`get_model_config`, `selected_model` the current value of the selection
control, `st` the session state when the button is clicked.

The translation follows the source line by line:
* `"Error" in selected_model` → notification, all three fields set to the
  connectivity error, return;
* otherwise `model_to_display` is set to the confirmation string, then
  `get_model_config` runs;
* an absent record → both remaining fields set to the per-model error
  string, one notification, return;
* otherwise `format_model_config` runs; if it raises, the exception escapes
  the handler with only `model_to_display` updated (`raised := true`);
* otherwise `model_config` is set to the formatted text and `system_prompt`
  to the extracted prompt when that is truthy (present and nonempty), else
  to the placeholder. -/
def submit (shw : String → Option PyFields) (selected_model : String)
    (st : SessionState) : SubmitResult :=
  if containsError selected_model then
    { state :=
        { model_to_display := connErrMsg
          model_config := connErrMsg
          system_prompt := connErrMsg }
      notifications := ["Ollama is not running or is not accessible"]
      raised := false }
  else
    let st1 := { st with
      model_to_display := "You submitted model: " ++ selected_model }
    match get_model_config shw selected_model with
    | (none, _) =>
      { state := { st1 with
          model_config := "Error getting config for " ++ selected_model
          system_prompt := "Error getting config for " ++ selected_model }
        notifications := ["Error getting config for " ++ selected_model]
        raised := false }
    | (some config_dict, extracted_system_prompt) =>
      match format_model_config config_dict with
      | Except.error _ =>
        { state := st1, notifications := [], raised := true }
      | Except.ok formatted =>
        let st2 := { st1 with model_config := formatted }
        { state :=
            match extracted_system_prompt with
            | some sp =>
              if sp = "" then
                { st2 with system_prompt := "No system prompt configured" }
              else
                { st2 with system_prompt := sp }
            | none => { st2 with system_prompt := "No system prompt configured" }
          notifications := []
          raised := false }

example :
    (submit (fun _ => some (.cons "system" (.str "You are helpful.") .nil))
      "llama3" initialState).state =
    { model_to_display := "You submitted model: llama3"
      model_config := String.mk
        (lbr :: "\n  \"system\": \"You are helpful.\"\n".data ++ [rbr])
      system_prompt := "You are helpful." } := by rfl

example :
    submit (fun _ => none)
      "Error: Could not connect to Ollama. Is it running?" initialState =
    { state :=
        { model_to_display := connErrMsg
          model_config := connErrMsg
          system_prompt := connErrMsg }
      notifications := ["Ollama is not running or is not accessible"]
      raised := false } := by rfl

/-- The sentinel entry `get_available_models` returns when the daemon is
unreachable; at startup it becomes the selection control's only option. -/
def sentinel : String := "Error: Could not connect to Ollama. Is it running?"

mutual

/-- A value contains no value `json.dumps` with `datetime_converter` would
fail on: every leaf is a native JSON value or a datetime. -/
def serializableV : PyVal → Bool
  | .obj _ => false
  | .dict fs => serializableF fs
  | .arr vs => serializableI vs
  | _ => true

/-- All entry values of the dict are serializable. -/
def serializableF : PyFields → Bool
  | .nil => true
  | .cons _ v fs => serializableV v && serializableF fs

/-- All elements of the list are serializable. -/
def serializableI : PyItems → Bool
  | .nil => true
  | .cons v vs => serializableV v && serializableI vs

end

mutual

/-- The datetime `t` occurs somewhere inside the value (at any depth). -/
def hasDTV (t : DT) : PyVal → Bool
  | .dt t2 => t2 = t
  | .dict fs => hasDTF t fs
  | .arr vs => hasDTI t vs
  | _ => false

/-- The datetime `t` occurs inside some entry value of the dict. -/
def hasDTF (t : DT) : PyFields → Bool
  | .nil => false
  | .cons _ v fs => hasDTV t v || hasDTF t fs

/-- The datetime `t` occurs inside some element of the list. -/
def hasDTI (t : DT) : PyItems → Bool
  | .nil => false
  | .cons v vs => hasDTV t v || hasDTI t vs

end

mutual

/-- Replace every datetime in the value by the plain string of its
ISO 8601 representation. -/
def mapDTV : PyVal → PyVal
  | .str s => .str s
  | .int n => .int n
  | .bool b => .bool b
  | .null => .null
  | .dt t => .str (isoformat t)
  | .obj ty => .obj ty
  | .dict fs => .dict (mapDTF fs)
  | .arr vs => .arr (mapDTI vs)

/-- `mapDTV` over all entry values of a dict. -/
def mapDTF : PyFields → PyFields
  | .nil => .nil
  | .cons k v fs => .cons k (mapDTV v) (mapDTF fs)

/-- `mapDTV` over all elements of a list. -/
def mapDTI : PyItems → PyItems
  | .nil => .nil
  | .cons v vs => .cons (mapDTV v) (mapDTI vs)

end

/-- `p` occurs contiguously (as a factor) inside `s`. -/
def ChunkOf (p s : List Char) : Prop :=
  ∃ x y, s = x ++ (p ++ y)

/-! ## Helper lemmas -/

/-- Whether the submit handler raises depends only on the oracle and the
selected model, never on the prior session state. -/
theorem submit_raised_indep (shw : String → Option PyFields) (sel : String)
    (st st' : SessionState) :
    (submit shw sel st).raised = (submit shw sel st').raised := by
  unfold submit
  by_cases hc : containsError sel
  · simp [hc]
  · simp only [hc, Bool.false_eq_true, if_false]
    cases hshw : shw sel with
    | none => simp [get_model_config, hshw]
    | some d =>
      cases hf : format_model_config d with
      | error e => simp [get_model_config, hshw, hf]
      | ok s =>
        cases hsys : systemOf d with
        | none => simp [get_model_config, hshw, hf, hsys]
        | some sp =>
          by_cases hsp : sp = "" <;>
            simp [get_model_config, hshw, hf, hsys, hsp]

/-- When the submit handler completes without an uncaught exception, its
entire outcome is independent of the session state it started from: every
branch that returns normally writes all three fields. -/
theorem submit_state_indep (shw : String → Option PyFields) (sel : String)
    (st st' : SessionState) (h : (submit shw sel st).raised = false) :
    submit shw sel st = submit shw sel st' := by
  unfold submit at h ⊢
  by_cases hc : containsError sel
  · simp [hc]
  · simp only [hc, Bool.false_eq_true, if_false] at h ⊢
    cases hshw : shw sel with
    | none => simp [get_model_config, hshw]
    | some d =>
      cases hf : format_model_config d with
      | error e => simp [get_model_config, hshw, hf] at h
      | ok s =>
        cases hsys : systemOf d with
        | none => simp [get_model_config, hshw, hf, hsys]
        | some sp =>
          by_cases hsp : sp = "" <;>
            simp [get_model_config, hshw, hf, hsys, hsp]

/-! ## Claim theorems -/

/-- C1 (amended): for every submission attempt during which formatting does
not raise, the resulting three Session State fields are fully determined by
the attempt itself — every normally-returning path writes all three fields,
so no residue of the prior state survives (no partial-update state). -/
theorem c1_no_partial_update (shw : String → Option PyFields) (sel : String)
    (st st' : SessionState) (h : (submit shw sel st).raised = false) :
    (submit shw sel st).state = (submit shw sel st').state :=
  congrArg SubmitResult.state (submit_state_indep shw sel st st' h)

theorem c1_no_partial_update_witness :
    (submit (fun _ => none) "llama3" initialState).raised = false ∧
    (submit (fun _ => none) "llama3" initialState).state =
      (submit (fun _ => none) "llama3"
        { model_to_display := "A", model_config := "B",
          system_prompt := "C" }).state :=
  ⟨rfl, c1_no_partial_update (fun _ => none) "llama3" initialState
    { model_to_display := "A", model_config := "B", system_prompt := "C" }
    rfl⟩

/-- C1 counterexample: a fetched record containing a non-serializable value
(here a value of Python type `function`) makes `format_model_config` raise
after `model_to_display` was already set; the attempt leaves the session in
a partial-update state — the label holds the new confirmation string while
the other two fields still hold their pre-attempt values, which is neither
a consistent success update nor a matching error indication. -/
theorem c1_counterexample :
    (submit (fun _ => some (.cons "cb" (.obj "function") .nil)) "llama3"
        { model_to_display := "OLD-LABEL", model_config := "OLD-CONFIG",
          system_prompt := "OLD-PROMPT" }).state =
      { model_to_display := "You submitted model: llama3",
        model_config := "OLD-CONFIG", system_prompt := "OLD-PROMPT" } ∧
    "OLD-CONFIG" ≠ "You submitted model: llama3" := by
  exact ⟨rfl, by decide⟩

/-- C2: when the selected model is not the sentinel and `get_model_config`
fails (the oracle returns `none`), the configuration and system-prompt
fields are both set to the error string naming the model, exactly one
notification fires (with that same message), and the label keeps the
confirmation string set before the fetch. -/
theorem c2_fetch_failure (shw : String → Option PyFields) (sel : String)
    (st : SessionState) (h1 : containsError sel = false)
    (h2 : shw sel = none) :
    (submit shw sel st).state.model_config =
      "Error getting config for " ++ sel ∧
    (submit shw sel st).state.system_prompt =
      "Error getting config for " ++ sel ∧
    (submit shw sel st).notifications =
      ["Error getting config for " ++ sel] ∧
    (submit shw sel st).state.model_to_display =
      "You submitted model: " ++ sel := by
  simp [submit, h1, get_model_config, h2]

theorem c2_fetch_failure_witness :
    (submit (fun _ => none) "llama3" initialState).state.model_config =
      "Error getting config for " ++ "llama3" ∧
    (submit (fun _ => none) "llama3" initialState).state.system_prompt =
      "Error getting config for " ++ "llama3" ∧
    (submit (fun _ => none) "llama3" initialState).notifications =
      ["Error getting config for " ++ "llama3"] ∧
    (submit (fun _ => none) "llama3" initialState).state.model_to_display =
      "You submitted model: " ++ "llama3" :=
  c2_fetch_failure (fun _ => none) "llama3" initialState (by decide) rfl

/-- C3: submitting while the daemon-unreachable sentinel is selected takes
the connectivity-error path: the outcome is the same for every oracle and
every prior state (so no fetch can influence it — none is attempted), all
three fields become the connectivity-error placeholder rather than any real
data, and exactly one notification fires. -/
theorem c3_sentinel_submit (shw shw' : String → Option PyFields)
    (st st' : SessionState) :
    submit shw sentinel st = submit shw' sentinel st' ∧
    (submit shw sentinel st).state.model_to_display = connErrMsg ∧
    (submit shw sentinel st).state.model_config = connErrMsg ∧
    (submit shw sentinel st).state.system_prompt = connErrMsg ∧
    (submit shw sentinel st).notifications =
      ["Ollama is not running or is not accessible"] :=
  ⟨rfl, rfl, rfl, rfl, rfl⟩

/-- C9: any selected identifier containing the substring `"Error"` — even a
name of a real installed model — takes the connectivity-error path: the
outcome ignores the oracle and the prior state (no fetch is attempted), all
three fields become the connectivity-error message, and one notification
fires. -/
theorem c9_error_substring (shw shw' : String → Option PyFields)
    (sel : String) (st st' : SessionState) (h : containsError sel = true) :
    submit shw sel st = submit shw' sel st' ∧
    (submit shw sel st).state =
      { model_to_display := connErrMsg, model_config := connErrMsg,
        system_prompt := connErrMsg } ∧
    (submit shw sel st).notifications =
      ["Ollama is not running or is not accessible"] := by
  simp [submit, h]

theorem c9_error_substring_witness :
    (submit (fun _ => some (.cons "system" (.str "real model") .nil))
        "my-Error-model" initialState).state =
      { model_to_display := connErrMsg, model_config := connErrMsg,
        system_prompt := connErrMsg } :=
  (c9_error_substring (fun _ => some (.cons "system" (.str "real model") .nil))
    (fun _ => some (.cons "system" (.str "real model") .nil))
    "my-Error-model" initialState initialState (by decide)).2.1

/-- C10: when the fetch succeeds but the record contains a value the
formatter cannot serialize, the `TypeError` escapes the handler after the
label was set: the attempt ends with `raised = true`, the label holding the
new confirmation string, the configuration and system-prompt fields holding
their values from before the attempt, and no notification fired. -/
theorem c10_formatting_raise (shw : String → Option PyFields) (sel : String)
    (st : SessionState) (d : PyFields) (e : String)
    (h1 : containsError sel = false) (h2 : shw sel = some d)
    (h3 : format_model_config d = Except.error e) :
    (submit shw sel st).raised = true ∧
    (submit shw sel st).state.model_to_display =
      "You submitted model: " ++ sel ∧
    (submit shw sel st).state.model_config = st.model_config ∧
    (submit shw sel st).state.system_prompt = st.system_prompt ∧
    (submit shw sel st).notifications = [] := by
  simp [submit, h1, get_model_config, h2, h3]

theorem c10_formatting_raise_witness :
    (submit (fun _ => some (.cons "cb" (.obj "function") .nil)) "llama3"
      initialState).raised = true ∧
    (submit (fun _ => some (.cons "cb" (.obj "function") .nil)) "llama3"
      initialState).state.model_to_display =
        "You submitted model: " ++ "llama3" ∧
    (submit (fun _ => some (.cons "cb" (.obj "function") .nil)) "llama3"
      initialState).state.model_config = initialState.model_config ∧
    (submit (fun _ => some (.cons "cb" (.obj "function") .nil)) "llama3"
      initialState).state.system_prompt = initialState.system_prompt ∧
    (submit (fun _ => some (.cons "cb" (.obj "function") .nil)) "llama3"
      initialState).notifications = [] :=
  c10_formatting_raise (fun _ => some (.cons "cb" (.obj "function") .nil))
    "llama3" initialState (.cons "cb" (.obj "function") .nil)
    "Object of type function is not JSON serializable"
    (by decide) rfl rfl

/-- C7: on any failure of the daemon round trip behind `ollama.list()`, no
error propagates to the caller (the function returns normally) and the
result is the single-element list whose sole element is the sentinel
string, which begins with "Error". -/
theorem c7_list_failure_sentinel (e : String) :
    get_available_models (Except.error e) =
      ["Error: Could not connect to Ollama. Is it running?"] ∧
    (get_available_models (Except.error e)).length = 1 ∧
    listHasPre "Error".data
      "Error: Could not connect to Ollama. Is it running?".data = true :=
  ⟨rfl, rfl, by decide⟩

/-- C8 (amended): for two consecutive submissions of different model
identifiers, provided the second submission completes without an uncaught
formatting exception, the final Session State equals the state produced by
the second submission alone from the same starting state — no residue of
the first submission survives. -/
theorem c8_second_submission_wins (shw : String → Option PyFields)
    (a b : String) (st : SessionState) (_hab : a ≠ b)
    (h : (submit shw b st).raised = false) :
    (submit shw b (submit shw a st).state).state =
      (submit shw b st).state := by
  have h2 : (submit shw b (submit shw a st).state).raised = false := by
    rw [submit_raised_indep shw b (submit shw a st).state st]
    exact h
  exact congrArg SubmitResult.state
    (submit_state_indep shw b (submit shw a st).state st h2)

theorem c8_second_submission_wins_witness :
    ("llama3" : String) ≠ "mistral" ∧
    (submit (fun _ => some (.cons "x" (.int 1) .nil)) "mistral"
      initialState).raised = false ∧
    (submit (fun _ => some (.cons "x" (.int 1) .nil)) "mistral"
        (submit (fun _ => some (.cons "x" (.int 1) .nil)) "llama3"
          initialState).state).state =
      (submit (fun _ => some (.cons "x" (.int 1) .nil)) "mistral"
        initialState).state :=
  ⟨by decide, rfl,
    c8_second_submission_wins (fun _ => some (.cons "x" (.int 1) .nil))
      "llama3" "mistral" initialState (by decide) rfl⟩

/-- C8 counterexample: the oracle maps model "a" to a serializable record
and model "b" to a record the formatter raises on; submitting "a" then "b"
leaves "a"'s formatted configuration in the configuration field, while
submitting "b" alone from the initial state leaves the initial placeholder
there — the two final states differ, so the claim as stated is false. -/
theorem c8_counterexample :
    (submit
        (fun m => if m = "a" then some (.cons "x" (.int 1) .nil)
                  else some (.cons "cb" (.obj "function") .nil))
        "b"
        (submit
          (fun m => if m = "a" then some (.cons "x" (.int 1) .nil)
                    else some (.cons "cb" (.obj "function") .nil))
          "a" initialState).state).state ≠
      (submit
        (fun m => if m = "a" then some (.cons "x" (.int 1) .nil)
                  else some (.cons "cb" (.obj "function") .nil))
        "b" initialState).state := by
  decide

/-- C4 counterexample: a fetch that succeeds with a record whose `system`
key is present but holds the empty string: the extracted system prompt is
`some ""`, yet the field is set to the placeholder (Python truthiness:
`if extracted_system_prompt:` treats `""` as false), not to the extracted
value `""`. -/
theorem c4_counterexample :
    systemOf (.cons "system" (.str "") .nil) = some "" ∧
    (submit (fun _ => some (.cons "system" (.str "") .nil)) "llama3"
      initialState).state.system_prompt = "No system prompt configured" ∧
    "No system prompt configured" ≠ "" :=
  ⟨rfl, rfl, by decide⟩

/-- C4 (amended): for every submission whose fetch succeeds and that
completes without an uncaught formatting exception, the system-prompt field
is set to the extracted `system` value when that value is present and
nonempty (truthy), and otherwise — key absent, `None`, or the empty
string — to the fixed placeholder "No system prompt configured". -/
theorem c4_system_prompt (shw : String → Option PyFields) (sel : String)
    (st : SessionState) (d : PyFields) (h1 : containsError sel = false)
    (h2 : shw sel = some d) (h3 : (submit shw sel st).raised = false) :
    (∀ sp, systemOf d = some sp → sp ≠ "" →
      (submit shw sel st).state.system_prompt = sp) ∧
    ((systemOf d = none ∨ systemOf d = some "") →
      (submit shw sel st).state.system_prompt =
        "No system prompt configured") := by
  cases hf : format_model_config d with
  | error e =>
    exfalso
    rw [show (submit shw sel st).raised = true by
      simp [submit, h1, get_model_config, h2, hf]] at h3
    exact Bool.noConfusion h3
  | ok s =>
    constructor
    · intro sp hsp hne
      simp [submit, h1, get_model_config, h2, hf, hsp, hne]
    · intro hcase
      rcases hcase with hn | he
      · simp [submit, h1, get_model_config, h2, hf, hn]
      · simp [submit, h1, get_model_config, h2, hf, he]

theorem c4_system_prompt_witness :
    (submit (fun _ => some (.cons "system" (.str "You are helpful.") .nil))
      "llama3" initialState).state.system_prompt = "You are helpful." :=
  (c4_system_prompt
    (fun _ => some (.cons "system" (.str "You are helpful.") .nil))
    "llama3" initialState (.cons "system" (.str "You are helpful.") .nil)
    (by decide) rfl rfl).1 "You are helpful." rfl (by decide)

mutual

/-- A value with no non-serializable leaf serializes successfully at every
indentation level. -/
theorem serializableV_ok : (v : PyVal) → ∀ ind, serializableV v = true →
    ∃ out, serVal ind v = Except.ok out
  | .str _ => fun _ _ => ⟨_, rfl⟩
  | .int _ => fun _ _ => ⟨_, rfl⟩
  | .bool _ => fun _ _ => ⟨_, rfl⟩
  | .null => fun _ _ => ⟨_, rfl⟩
  | .dt _ => fun _ _ => ⟨_, rfl⟩
  | .obj _ => fun _ h => by simp [serializableV] at h
  | .dict .nil => fun _ _ => ⟨_, rfl⟩
  | .dict (.cons k v fs) => fun ind h => by
      obtain ⟨body, hbody⟩ := serializableF_ok (.cons k v fs) ind
        (by simpa [serializableV] using h)
      exact ⟨lbr :: '\n' :: (body ++ '\n' :: (spaces ind ++ [rbr])),
        by simp [serVal, hbody]⟩
  | .arr .nil => fun _ _ => ⟨_, rfl⟩
  | .arr (.cons v vs) => fun ind h => by
      obtain ⟨body, hbody⟩ := serializableI_ok (.cons v vs) ind
        (by simpa [serializableV] using h)
      exact ⟨'[' :: '\n' :: (body ++ '\n' :: (spaces ind ++ [']'])),
        by simp [serVal, hbody]⟩

/-- Dict entries all of whose values are serializable serialize
successfully. -/
theorem serializableF_ok : (fs : PyFields) → ∀ ind, serializableF fs = true →
    ∃ out, serFields ind fs = Except.ok out
  | .nil => fun _ _ => ⟨_, rfl⟩
  | .cons k v .nil => fun ind h => by
      simp only [serializableF, Bool.and_eq_true] at h
      obtain ⟨sv, hsv⟩ := serializableV_ok v (ind + 2) h.1
      exact ⟨spaces (ind + 2) ++ escString k ++ ':' :: ' ' :: sv,
        by simp [serFields, hsv]⟩
  | .cons k v (.cons k2 v2 fs) => fun ind h => by
      simp only [serializableF, Bool.and_eq_true] at h
      obtain ⟨sv, hsv⟩ := serializableV_ok v (ind + 2) h.1
      obtain ⟨rest, hrest⟩ := serializableF_ok (.cons k2 v2 fs) ind
        (by simp only [serializableF, Bool.and_eq_true]; exact h.2)
      exact ⟨spaces (ind + 2) ++ escString k ++
          ':' :: ' ' :: (sv ++ ',' :: '\n' :: rest),
        by simp [serFields, hsv, hrest]⟩

/-- List elements all serializable serialize successfully. -/
theorem serializableI_ok : (vs : PyItems) → ∀ ind, serializableI vs = true →
    ∃ out, serItems ind vs = Except.ok out
  | .nil => fun _ _ => ⟨_, rfl⟩
  | .cons v .nil => fun ind h => by
      simp only [serializableI, Bool.and_eq_true] at h
      obtain ⟨sv, hsv⟩ := serializableV_ok v (ind + 2) h.1
      exact ⟨spaces (ind + 2) ++ sv, by simp [serItems, hsv]⟩
  | .cons v (.cons v2 vs) => fun ind h => by
      simp only [serializableI, Bool.and_eq_true] at h
      obtain ⟨sv, hsv⟩ := serializableV_ok v (ind + 2) h.1
      obtain ⟨rest, hrest⟩ := serializableI_ok (.cons v2 vs) ind
        (by simp only [serializableI, Bool.and_eq_true]; exact h.2)
      exact ⟨spaces (ind + 2) ++ (sv ++ ',' :: '\n' :: rest),
        by simp [serItems, hsv, hrest]⟩

end

/-- C5: `format_model_config` is a pure function of the record — equal
records yield the identical output string — and on records with no
unserializable values it returns normally; the only effects in the
embedding are the returned value, mirroring that `json.dumps` performs no
I/O. -/
theorem c5_format_deterministic (R1 R2 : PyFields) (h : R1 = R2)
    (hs : serializableF R1 = true) :
    ∃ s, format_model_config R1 = Except.ok s ∧
      format_model_config R2 = Except.ok s := by
  subst h
  obtain ⟨out, hout⟩ := serializableV_ok (.dict R1) 0
    (by simpa [serializableV] using hs)
  exact ⟨String.mk out, by simp [format_model_config, hout],
    by simp [format_model_config, hout]⟩

theorem c5_format_deterministic_witness :
    ∃ s, format_model_config
        (.cons "system" (.str "You are helpful.") .nil) = Except.ok s ∧
      format_model_config
        (.cons "system" (.str "You are helpful.") .nil) = Except.ok s :=
  c5_format_deterministic (.cons "system" (.str "You are helpful.") .nil)
    (.cons "system" (.str "You are helpful.") .nil) rfl (by decide)

/-- A factor of `s` is a factor of any extension of `s` on both sides. -/
theorem chunkOf_wrap (p s x y : List Char) (h : ChunkOf p s) :
    ChunkOf p (x ++ (s ++ y)) := by
  obtain ⟨a, b, rfl⟩ := h
  exact ⟨x ++ a, b ++ y, by simp⟩

/-- Every list whose characters all escape to themselves. -/
def SafeL (l : List Char) : Prop := ∀ c ∈ l, escChar c = [c]

theorem safeL_nil : SafeL [] := by
  intro c hc
  cases hc

theorem safeL_cons (c0 : Char) (l : List Char) (hc : escChar c0 = [c0])
    (h : SafeL l) : SafeL (c0 :: l) := by
  intro c hm
  rcases List.mem_cons.mp hm with rfl | hm
  · exact hc
  · exact h c hm

theorem safeL_append (a b : List Char) (h1 : SafeL a) (h2 : SafeL b) :
    SafeL (a ++ b) := by
  intro c hc
  rcases List.mem_append.mp hc with h | h
  · exact h1 c h
  · exact h2 c h

/-- Decimal digit characters are passed through unescaped by `escChar`. -/
theorem escChar_digitChar (k : Nat) (h : k < 10) :
    escChar (Nat.digitChar k) = [Nat.digitChar k] := by
  interval_cases k <;> decide

theorem escChar_digit (m : Nat) :
    escChar (Nat.digitChar (m % 10)) = [Nat.digitChar (m % 10)] :=
  escChar_digitChar _ (Nat.mod_lt _ (by omega))

theorem pad2_safe (n : Nat) : SafeL (pad2 n) :=
  safeL_cons _ _ (escChar_digit _)
    (safeL_cons _ _ (escChar_digit _) safeL_nil)

theorem pad4_safe (n : Nat) : SafeL (pad4 n) :=
  safeL_cons _ _ (escChar_digit _) (safeL_cons _ _ (escChar_digit _)
    (safeL_cons _ _ (escChar_digit _)
      (safeL_cons _ _ (escChar_digit _) safeL_nil)))

theorem pad6_safe (n : Nat) : SafeL (pad6 n) :=
  safeL_cons _ _ (escChar_digit _) (safeL_cons _ _ (escChar_digit _)
    (safeL_cons _ _ (escChar_digit _) (safeL_cons _ _ (escChar_digit _)
      (safeL_cons _ _ (escChar_digit _)
        (safeL_cons _ _ (escChar_digit _) safeL_nil)))))

/-- No character of an ISO 8601 datetime needs JSON escaping. -/
theorem isoChars_safe (t : DT) : SafeL (isoChars t) := by
  unfold isoChars
  refine safeL_append _ _ (safeL_append _ _ (safeL_append _ _
    (safeL_append _ _ (safeL_append _ _ (safeL_append _ _
      (pad4_safe _) (safeL_cons _ _ (by decide) (pad2_safe _)))
      (safeL_cons _ _ (by decide) (pad2_safe _)))
      (safeL_cons _ _ (by decide) (pad2_safe _)))
      (safeL_cons _ _ (by decide) (pad2_safe _)))
      (safeL_cons _ _ (by decide) (pad2_safe _))) ?_
  by_cases hm : t.microsecond = 0
  · rw [if_pos hm]
    exact safeL_nil
  · rw [if_neg hm]
    exact safeL_cons _ _ (by decide) (pad6_safe _)

theorem concatMap_safe_id (l : List Char) (h : SafeL l) :
    concatMap escChar l = l := by
  induction l with
  | nil => rfl
  | cons a as ih =>
    rw [concatMap, h a (List.mem_cons_self a as),
      ih (fun c hc => h c (List.mem_cons_of_mem a hc))]
    rfl

/-- The JSON serialization of the ISO string of a datetime is exactly that
string between two quote characters. -/
theorem escString_iso (t : DT) :
    escString (isoformat t) = '"' :: (isoChars t ++ ['"']) := by
  simp only [escString, isoformat]
  rw [concatMap_safe_id _ (isoChars_safe t)]
  simp

mutual

/-- Replacing every datetime by the plain string of its ISO form leaves
the serialized output unchanged: a datetime is rendered exactly as the
JSON string of its ISO 8601 representation. -/
theorem serVal_mapDT : (v : PyVal) → ∀ ind,
    serVal ind (mapDTV v) = serVal ind v
  | .str _ => fun _ => rfl
  | .int _ => fun _ => rfl
  | .bool _ => fun _ => rfl
  | .null => fun _ => rfl
  | .dt _ => fun _ => rfl
  | .obj _ => fun _ => rfl
  | .dict .nil => fun _ => rfl
  | .dict (.cons k v fs) => fun ind => by
      have h := serFields_mapDT (.cons k v fs) ind
      simp only [mapDTV, mapDTF] at h ⊢
      cases he : serFields ind (.cons k v fs) with
      | error e =>
        rw [he] at h
        simp [serVal, mapDTF, h, he]
      | ok body =>
        rw [he] at h
        simp [serVal, mapDTF, h, he]
  | .arr .nil => fun _ => rfl
  | .arr (.cons v vs) => fun ind => by
      have h := serItems_mapDT (.cons v vs) ind
      simp only [mapDTV, mapDTI] at h ⊢
      cases he : serItems ind (.cons v vs) with
      | error e =>
        rw [he] at h
        simp [serVal, mapDTI, h, he]
      | ok body =>
        rw [he] at h
        simp [serVal, mapDTI, h, he]

/-- `serVal_mapDT` lifted to dict entries. -/
theorem serFields_mapDT : (fs : PyFields) → ∀ ind,
    serFields ind (mapDTF fs) = serFields ind fs
  | .nil => fun _ => rfl
  | .cons k v .nil => fun ind => by
      have h := serVal_mapDT v (ind + 2)
      simp only [mapDTF] at h ⊢
      cases he : serVal (ind + 2) v with
      | error e =>
        rw [he] at h
        simp [serFields, h, he]
      | ok sv =>
        rw [he] at h
        simp [serFields, h, he]
  | .cons k v (.cons k2 v2 fs) => fun ind => by
      have h := serVal_mapDT v (ind + 2)
      have h2 := serFields_mapDT (.cons k2 v2 fs) ind
      simp only [mapDTF] at h h2 ⊢
      cases he : serVal (ind + 2) v with
      | error e =>
        rw [he] at h
        simp [serFields, h, he]
      | ok sv =>
        rw [he] at h
        cases he2 : serFields ind (.cons k2 v2 fs) with
        | error e2 =>
          rw [he2] at h2
          simp [serFields, h, he, h2, he2]
        | ok rest =>
          rw [he2] at h2
          simp [serFields, h, he, h2, he2]

/-- `serVal_mapDT` lifted to list elements. -/
theorem serItems_mapDT : (vs : PyItems) → ∀ ind,
    serItems ind (mapDTI vs) = serItems ind vs
  | .nil => fun _ => rfl
  | .cons v .nil => fun ind => by
      have h := serVal_mapDT v (ind + 2)
      simp only [mapDTI] at h ⊢
      cases he : serVal (ind + 2) v with
      | error e =>
        rw [he] at h
        simp [serItems, h, he]
      | ok sv =>
        rw [he] at h
        simp [serItems, h, he]
  | .cons v (.cons v2 vs) => fun ind => by
      have h := serVal_mapDT v (ind + 2)
      have h2 := serItems_mapDT (.cons v2 vs) ind
      simp only [mapDTI] at h h2 ⊢
      cases he : serVal (ind + 2) v with
      | error e =>
        rw [he] at h
        simp [serItems, h, he]
      | ok sv =>
        rw [he] at h
        cases he2 : serItems ind (.cons v2 vs) with
        | error e2 =>
          rw [he2] at h2
          simp [serItems, h, he, h2, he2]
        | ok rest =>
          rw [he2] at h2
          simp [serItems, h, he, h2, he2]

end

mutual

/-- When a datetime `t` occurs anywhere inside a value that serializes
successfully, the quoted ISO form of `t` occurs contiguously in the
output. -/
theorem hasDTV_chunk (t : DT) : (v : PyVal) → ∀ ind out,
    hasDTV t v = true → serVal ind v = Except.ok out →
    ChunkOf ('"' :: (isoChars t ++ ['"'])) out
  | .str _ => fun _ _ h _ => by simp [hasDTV] at h
  | .int _ => fun _ _ h _ => by simp [hasDTV] at h
  | .bool _ => fun _ _ h _ => by simp [hasDTV] at h
  | .null => fun _ _ h _ => by simp [hasDTV] at h
  | .dt t2 => fun ind out h hs => by
      have ht : t2 = t := by simpa [hasDTV] using h
      subst ht
      have hout : out = escString (isoformat t2) := by
        simpa [serVal, datetime_converter] using hs.symm
      rw [hout, escString_iso]
      exact ⟨[], [], by simp⟩
  | .obj _ => fun _ _ h _ => by simp [hasDTV] at h
  | .dict .nil => fun _ _ h _ => by simp [hasDTV, hasDTF] at h
  | .dict (.cons k v fs) => fun ind out h hs => by
      have hf : hasDTF t (.cons k v fs) = true := by simpa [hasDTV] using h
      cases hb : serFields ind (.cons k v fs) with
      | error e => simp [serVal, hb] at hs
      | ok body =>
        have hout : out =
            lbr :: '\n' :: (body ++ '\n' :: (spaces ind ++ [rbr])) := by
          simpa [serVal, hb] using hs.symm
        rw [hout]
        exact chunkOf_wrap _ body [lbr, '\n'] ('\n' :: (spaces ind ++ [rbr]))
          (hasDTF_chunk t (.cons k v fs) ind body hf hb)
  | .arr .nil => fun _ _ h _ => by simp [hasDTV, hasDTI] at h
  | .arr (.cons v vs) => fun ind out h hs => by
      have hf : hasDTI t (.cons v vs) = true := by simpa [hasDTV] using h
      cases hb : serItems ind (.cons v vs) with
      | error e => simp [serVal, hb] at hs
      | ok body =>
        have hout : out =
            '[' :: '\n' :: (body ++ '\n' :: (spaces ind ++ [']'])) := by
          simpa [serVal, hb] using hs.symm
        rw [hout]
        exact chunkOf_wrap _ body ['[', '\n'] ('\n' :: (spaces ind ++ [']']))
          (hasDTI_chunk t (.cons v vs) ind body hf hb)

/-- `hasDTV_chunk` lifted to dict entries. -/
theorem hasDTF_chunk (t : DT) : (fs : PyFields) → ∀ ind out,
    hasDTF t fs = true → serFields ind fs = Except.ok out →
    ChunkOf ('"' :: (isoChars t ++ ['"'])) out
  | .nil => fun _ _ h _ => by simp [hasDTF] at h
  | .cons k v .nil => fun ind out h hs => by
      have hv : hasDTV t v = true := by simpa [hasDTF] using h
      cases hsv : serVal (ind + 2) v with
      | error e => simp [serFields, hsv] at hs
      | ok sv =>
        have hout : out = spaces (ind + 2) ++ escString k ++
            ':' :: ' ' :: sv := by
          simpa [serFields, hsv] using hs.symm
        obtain ⟨a, b, hab2⟩ := hasDTV_chunk t v (ind + 2) sv hv hsv
        rw [hout, hab2]
        exact ⟨spaces (ind + 2) ++ escString k ++ ':' :: ' ' :: a, b,
          by simp [List.append_assoc, List.cons_append]⟩
  | .cons k v (.cons k2 v2 fs) => fun ind out h hs => by
      cases hsv : serVal (ind + 2) v with
      | error e => simp [serFields, hsv] at hs
      | ok sv =>
        cases hrest : serFields ind (.cons k2 v2 fs) with
        | error e => simp [serFields, hsv, hrest] at hs
        | ok rest =>
          have hout : out = spaces (ind + 2) ++ escString k ++
              ':' :: ' ' :: (sv ++ ',' :: '\n' :: rest) := by
            simpa [serFields, hsv, hrest] using hs.symm
          have hor : hasDTV t v = true ∨
              hasDTF t (.cons k2 v2 fs) = true := by
            simpa [hasDTF, Bool.or_eq_true] using h
          rcases hor with hv | hf
          · obtain ⟨a, b, hab2⟩ := hasDTV_chunk t v (ind + 2) sv hv hsv
            rw [hout, hab2]
            exact ⟨spaces (ind + 2) ++ escString k ++ ':' :: ' ' :: a,
              b ++ ',' :: '\n' :: rest,
              by simp [List.append_assoc, List.cons_append]⟩
          · obtain ⟨a, b, hab2⟩ :=
              hasDTF_chunk t (.cons k2 v2 fs) ind rest hf hrest
            rw [hout, hab2]
            exact ⟨spaces (ind + 2) ++ escString k ++
                ':' :: ' ' :: (sv ++ ',' :: '\n' :: a), b,
              by simp [List.append_assoc, List.cons_append]⟩

/-- `hasDTV_chunk` lifted to list elements. -/
theorem hasDTI_chunk (t : DT) : (vs : PyItems) → ∀ ind out,
    hasDTI t vs = true → serItems ind vs = Except.ok out →
    ChunkOf ('"' :: (isoChars t ++ ['"'])) out
  | .nil => fun _ _ h _ => by simp [hasDTI] at h
  | .cons v .nil => fun ind out h hs => by
      have hv : hasDTV t v = true := by simpa [hasDTI] using h
      cases hsv : serVal (ind + 2) v with
      | error e => simp [serItems, hsv] at hs
      | ok sv =>
        have hout : out = spaces (ind + 2) ++ sv := by
          simpa [serItems, hsv] using hs.symm
        obtain ⟨a, b, hab2⟩ := hasDTV_chunk t v (ind + 2) sv hv hsv
        rw [hout, hab2]
        exact ⟨spaces (ind + 2) ++ a, b,
          by simp [List.append_assoc, List.cons_append]⟩
  | .cons v (.cons v2 vs) => fun ind out h hs => by
      cases hsv : serVal (ind + 2) v with
      | error e => simp [serItems, hsv] at hs
      | ok sv =>
        cases hrest : serItems ind (.cons v2 vs) with
        | error e => simp [serItems, hsv, hrest] at hs
        | ok rest =>
          have hout : out = spaces (ind + 2) ++
              (sv ++ ',' :: '\n' :: rest) := by
            simpa [serItems, hsv, hrest] using hs.symm
          have hor : hasDTV t v = true ∨
              hasDTI t (.cons v2 vs) = true := by
            simpa [hasDTI, Bool.or_eq_true] using h
          rcases hor with hv | hf
          · obtain ⟨a, b, hab2⟩ := hasDTV_chunk t v (ind + 2) sv hv hsv
            rw [hout, hab2]
            exact ⟨spaces (ind + 2) ++ a, b ++ ',' :: '\n' :: rest,
              by simp [List.append_assoc, List.cons_append]⟩
          · obtain ⟨a, b, hab2⟩ :=
              hasDTI_chunk t (.cons v2 vs) ind rest hf hrest
            rw [hout, hab2]
            exact ⟨spaces (ind + 2) ++ (sv ++ ',' :: '\n' :: a), b,
              by simp [List.append_assoc, List.cons_append]⟩

end

/-- C6: when a configuration record containing a datetime `t` formats
successfully, the output contains the ISO 8601 representation of `t`
contiguously; and replacing every datetime in the record by the plain
string of its ISO form leaves the formatted output unchanged, so the only
textual form of a timestamp in the output is its ISO 8601 string (rendered
as a JSON string). -/
theorem c6_iso_rendering (t : DT) (d : PyFields) (s : String)
    (h1 : hasDTF t d = true) (h2 : format_model_config d = Except.ok s) :
    ChunkOf (isoformat t).data s.data ∧
    format_model_config (mapDTF d) = format_model_config d := by
  constructor
  · cases hv : serVal 0 (.dict d) with
    | error e =>
      rw [format_model_config, hv] at h2
      cases h2
    | ok out =>
      have hs : s = String.mk out := by
        rw [format_model_config, hv] at h2
        cases h2
        rfl
      have hd : hasDTV t (.dict d) = true := by
        cases d with
        | nil => simp [hasDTF] at h1
        | cons k v fs => simpa [hasDTV] using h1
      obtain ⟨a, b, hab2⟩ := hasDTV_chunk t (.dict d) 0 out hd hv
      rw [hs]
      refine ⟨a ++ ['"'], '"' :: b, ?_⟩
      rw [show (String.mk out).data = out from rfl, hab2,
        show (isoformat t).data = isoChars t from rfl]
      simp [List.append_assoc, List.cons_append]
  · have h := serVal_mapDT (.dict d) 0
    simp only [mapDTV] at h
    unfold format_model_config
    rw [h]

theorem c6_iso_rendering_witness :
    ChunkOf (isoformat ⟨2024, 5, 17, 10, 30, 0, 0⟩).data
      "\x7b\n  \"modified_at\": \"2024-05-17T10:30:00\"\n\x7d".data ∧
    format_model_config
        (mapDTF (.cons "modified_at" (.dt ⟨2024, 5, 17, 10, 30, 0, 0⟩) .nil)) =
      format_model_config
        (.cons "modified_at" (.dt ⟨2024, 5, 17, 10, 30, 0, 0⟩) .nil) :=
  c6_iso_rendering ⟨2024, 5, 17, 10, 30, 0, 0⟩
    (.cons "modified_at" (.dt ⟨2024, 5, 17, 10, 30, 0, 0⟩) .nil)
    "\x7b\n  \"modified_at\": \"2024-05-17T10:30:00\"\n\x7d"
    (by decide) rfl
